import Mathlib

/-!
Verification of the shelter `runserver` supervision engine
(`shelter/commands/runserver.py`): socket binding per interface, worker
descriptor creation, the worker's parent-liveness poll, the worker's
stopping procedure, and the master command's invocation of the worker pool.

The Python source is shallowly embedded: pure decisions become Lean
functions, side effects (binding sockets, appending worker descriptors,
stopping the HTTP server, scheduling an IOLoop stop callback) become
explicit event/action traces, and exceptions become `Option`/sum results.
-/

namespace Shelter

/-- One network interface specification, as read by `RunServer.init_workers`
from `tornado_app.settings['interface']`: `name`, `host`, `port`,
`unix_socket`, `processes`.  A `port` of 0 and an empty `unix_socket` play
the role of Python falsy values in the truthiness tests of the source. -/
structure Interface where
  name : String
  host : String
  port : Nat
  unix_socket : String
  processes : Int
deriving DecidableEq, Repr

/-- A Tornado application, reduced to the only settings entry
`init_workers` reads from it: the interface it serves. -/
structure TornadoApp where
  interface : Interface
deriving DecidableEq, Repr

/-- The bound socket set returned by `tornado.netutil.bind_sockets(port, host)`
or `tornado.netutil.bind_unix_socket(path)`.  Binding itself is an external
OS effect; the constructors record which bind was performed. -/
inductive Sockets
  | tcp (port : Nat) (host : String)
  | unix (path : String)
deriving DecidableEq, Repr

/-- The worker factory passed to each `Worker`; in the source it is always
the function `get_worker_instance`. -/
inductive WorkerFactory
  | getWorkerInstance
deriving DecidableEq, Repr

/-- The argument tuple `(tornado_app, sockets, self.pid)` given to each
worker descriptor and forwarded to the worker process target. -/
structure WorkerArgs where
  app : TornadoApp
  sockets : Sockets
  parent_pid : Nat
deriving DecidableEq, Repr

/-- A worker descriptor, `shelter.core.processes.Worker`, as constructed at
`runserver.py` lines 142-145: keyword arguments `name`, `factory`, `args`. -/
structure Worker where
  name : String
  factory : WorkerFactory
  args : WorkerArgs
deriving DecidableEq, Repr

/-- The Python exception raised by `init_workers`: `ValueError` with a
message (the spec's ConfigurationError taxonomy names these errors). -/
inductive PyError
  | valueError (msg : String)
deriving DecidableEq, Repr

/-- Side effects performed by `init_workers`, in program order: binding a
socket set, and appending one worker descriptor to `self.workers`. -/
inductive Event
  | bindSockets (sockets : Sockets)
  | appendWorker (w : Worker)
deriving DecidableEq, Repr

/-- Lines 119-120: `if processes <= 0: processes = tornado.process.cpu_count()`.
The detected CPU core count is an input here because `cpu_count` is an
external collaborator (Tornado falls back to 1 when detection fails). -/
def effective_processes (cpu : Nat) (interface : Interface) : Nat :=
  if interface.processes ≤ 0 then cpu else interface.processes.toNat

/-- `RunServer.init_workers` (lines 110-146).  Given the detected CPU count,
the master's own pid (`self.pid`), the current `self.workers` list and the
Tornado application, it returns the exception raised (if any), the updated
`self.workers` list, and the trace of bind/append effects in program order.
When a `ValueError` is raised the worker list is returned unchanged and the
trace is empty, as in the source where the raise precedes any bind or
append. -/
def init_workers (cpu pid : Nat) (workers : List Worker) (tornado_app : TornadoApp) :
    Option PyError × List Worker × List Event :=
  let interface := tornado_app.interface
  let processes := effective_processes cpu interface
  if interface.port ≠ 0 ∧ interface.unix_socket ≠ "" then
    (some (PyError.valueError
      "Interface MUST NOT listen on both IP socket and UNIX socket"), workers, [])
  else if interface.port ≠ 0 then
    let sockets := Sockets.tcp interface.port interface.host
    let new := List.replicate processes
      { name := interface.name, factory := WorkerFactory.getWorkerInstance,
        args := { app := tornado_app, sockets := sockets, parent_pid := pid } }
    (none, workers ++ new, Event.bindSockets sockets :: new.map Event.appendWorker)
  else if interface.unix_socket ≠ "" then
    let sockets := Sockets.unix interface.unix_socket
    let new := List.replicate processes
      { name := interface.name, factory := WorkerFactory.getWorkerInstance,
        args := { app := tornado_app, sockets := sockets, parent_pid := pid } }
    (none, workers ++ new, Event.bindSockets sockets :: new.map Event.appendWorker)
  else
    (some (PyError.valueError
      "Interface MUST listen either on IP socket or UNIX socket"), workers, [])

/-- An interface that passes `init_workers`' mutual-exclusivity checks:
exactly one of TCP port and unix socket path is set. -/
def valid_interface (i : Interface) : Prop :=
  (i.port ≠ 0 ∧ i.unix_socket = "") ∨ (i.port = 0 ∧ i.unix_socket ≠ "")

instance (i : Interface) : Decidable (valid_interface i) := by
  unfold valid_interface
  infer_instance

/-- The per-worker runtime state the stopping procedure acts on: whether the
HTTP server still accepts connections, and whether a stop callback for the
IOLoop has been scheduled. -/
structure WorkerState where
  serverAccepting : Bool
  loopStopRequested : Bool
deriving DecidableEq, Repr

/-- Worker state right after `tornado_worker`'s setup: the HTTP server is
accepting on the inherited sockets and no loop stop has been requested. -/
def initial_worker_state : WorkerState :=
  { serverAccepting := true, loopStopRequested := false }

/-- The observable actions of the stopping procedure, in program order:
`http_server.stop()` and
`IOLoop.instance().add_callback(IOLoop.instance().stop)`. -/
inductive Action
  | httpServerStop
  | addCallbackLoopStop
deriving DecidableEq, Repr

/-- `stop_child(http_server, parent_pid)` (lines 24-36).  `ppid` is the
value of `os.getppid()` observed at this invocation; the HTTP server and
IOLoop objects become the `WorkerState`.  On a parent-pid mismatch it stops
the HTTP server and then schedules an IOLoop stop; otherwise it does
nothing. -/
def stop_child (parent_pid ppid : Nat) (s : WorkerState) : WorkerState × List Action :=
  if ppid ≠ parent_pid then
    ({ serverAccepting := false, loopStopRequested := true },
     [Action.httpServerStop, Action.addCallbackLoopStop])
  else
    (s, [])

/-- The SIGINT handler registered by `tornado_worker` (lines 56-65): it
unconditionally stops the HTTP server and then schedules an IOLoop stop.
The two arguments mirror the ignored `dummy_signum, dummy_frame`. -/
def sigint_handler (dummy_signum dummy_frame : Nat) : WorkerState × List Action :=
  ({ serverAccepting := false, loopStopRequested := true },
   [Action.httpServerStop, Action.addCallbackLoopStop])

/-- The fixed period of the liveness `PeriodicCallback` (line 69): 250 ms. -/
def stop_callback_interval_ms : Nat := 250

/-- The worker's liveness poll over discrete time: tick `m` runs
`stop_child` at time `stop_callback_interval_ms * m` against the parent pid
observed there (`ppid` maps a time in ms to the `os.getppid()` value then).
`parent_pid` is the value captured at worker creation and closed over by the
`functools.partial` on line 69. -/
def run_ticks (parent_pid : Nat) (ppid : Nat → Nat) (s0 : WorkerState) : Nat → WorkerState
  | 0 => s0
  | m + 1 =>
    (stop_child parent_pid (ppid (stop_callback_interval_ms * (m + 1)))
      (run_ticks parent_pid ppid s0 m)).1

/-- Every scheduled IOLoop stop in a trace is preceded by an HTTP-server
stop: the loop is never asked to stop before the server stopped accepting. -/
def serverStopBeforeLoopStop (tr : List Action) : Prop :=
  ∀ i : Fin tr.length, tr.get i = Action.addCallbackLoopStop →
    ∃ j : Fin tr.length, (j : Nat) < (i : Nat) ∧ tr.get j = Action.httpServerStop

instance (tr : List Action) : Decidable (serverStopBeforeLoopStop tr) := by
  unfold serverStopBeforeLoopStop
  infer_instance

/-- The target of the `multiprocessing.Process` created by
`get_worker_instance`; in the source it is always `tornado_worker`. -/
inductive ProcTarget
  | tornadoWorker
deriving DecidableEq, Repr

/-- A `multiprocessing.Process` as used here: its target, its argument
tuple, and the dynamically added `ready` attribute (absent ≈ `false`). -/
structure Process where
  target : ProcTarget
  args : WorkerArgs
  ready : Bool
deriving DecidableEq, Repr

/-- `get_worker_instance(args)` (lines 76-83): create a
`multiprocessing.Process` targeting `tornado_worker` with `args`, set its
`ready` attribute to `True`, return it. -/
def get_worker_instance (args : WorkerArgs) : Process :=
  let inst : Process := { target := ProcTarget.tornadoWorker, args := args, ready := false }
  { inst with ready := true }

/-- Modelled from the spec: the configuration input carries a global
`max_restarts` integer for the Supervisor (configuration loading lives in
`shelter.core.config`, outside the visible source); `name` is the
application name used in process titles. -/
structure Config where
  name : String
  max_restarts : Nat
deriving DecidableEq, Repr

/-- The call `start_workers(self.workers, max_restarts=...)` issued by
`RunServer.command`: the worker list and the `max_restarts` value actually
passed to the pool run. -/
structure StartWorkersCall where
  workers : List Worker
  max_restarts : Nat
deriving DecidableEq, Repr

/-- The loop on lines 102-103: `init_workers` for each Tornado application
in order, threading `self.workers`; a raised `ValueError` propagates and
stops the loop, as in Python. -/
def init_all (cpu pid : Nat) (apps : List TornadoApp) (workers : List Worker) :
    Option PyError × List Worker :=
  match apps with
  | [] => (none, workers)
  | app :: rest =>
    match init_workers cpu pid workers app with
    | (some e, ws, _) => (some e, ws)
    | (none, ws, _) => init_all cpu pid rest ws

/-- `RunServer.command` up to the pool run (lines 96-106): set the master
process title, initialize workers for every application, then call
`start_workers(self.workers, max_restarts=100)`.  Returns the process
title, the propagated exception (if any), and the `start_workers` call
issued (none when initialization raised before reaching line 106). -/
def command (cfg : Config) (argv : String) (cpu pid : Nat) (apps : List TornadoApp) :
    String × Option PyError × Option StartWorkersCall :=
  let title := cfg.name ++ ": master process '" ++ argv ++ "'"
  match init_all cpu pid apps [] with
  | (some e, _) => (title, some e, none)
  | (none, ws) => (title, none, some { workers := ws, max_restarts := 100 })

/-- A Python exception escaping `start_workers`, as discriminated by the
`try/except` on lines 105-108: `KeyboardInterrupt`, or any other exception
identified by its class name. -/
inductive PyExc
  | keyboardInterrupt
  | other (name : String)
deriving DecidableEq, Repr

/-- The `try: start_workers(...) except KeyboardInterrupt: pass` block
(lines 105-108), as a transformer on the outcome of the external
`start_workers` call: `KeyboardInterrupt` is absorbed into a normal return,
anything else propagates unchanged. -/
def run_workers_guard (outcome : Except PyExc Unit) : Except PyExc Unit :=
  match outcome with
  | Except.error PyExc.keyboardInterrupt => Except.ok ()
  | r => r

/-- Concrete interfaces used to instantiate the theorems below. -/
def iface_tcp : Interface :=
  { name := "http", host := "localhost", port := 8080, unix_socket := "", processes := 2 }

def iface_unix : Interface :=
  { name := "ipc", host := "", port := 0, unix_socket := "/tmp/x.sock", processes := 1 }

def iface_both : Interface :=
  { name := "bad", host := "localhost", port := 8080,
    unix_socket := "/tmp/x.sock", processes := 2 }

def iface_neither : Interface :=
  { name := "empty", host := "", port := 0, unix_socket := "", processes := 1 }

def iface_auto : Interface :=
  { name := "auto", host := "", port := 9090, unix_socket := "", processes := 0 }

/-- Claim C2: for every Interface with both `port` and `unix_socket_path`
set, worker initialization fails with the configuration error
"must not listen on both" (the `ValueError` on lines 123-125), no socket is
bound and no worker descriptor is appended: the worker list is returned
unchanged and the effect trace is empty. -/
theorem C2_both_set_fails (cpu pid : Nat) (ws : List Worker) (app : TornadoApp)
    (hport : app.interface.port ≠ 0) (hunix : app.interface.unix_socket ≠ "") :
    init_workers cpu pid ws app =
      (some (PyError.valueError
        "Interface MUST NOT listen on both IP socket and UNIX socket"), ws, []) := by
  simp [init_workers, hport, hunix]

/-- Claim C2 witness at the spec's own scenario
Interface{unix_socket_path="/tmp/x.sock", port=8080}. -/
theorem C2_both_set_fails_witness :
    init_workers 4 7 [] { interface := iface_both } =
      (some (PyError.valueError
        "Interface MUST NOT listen on both IP socket and UNIX socket"), [], []) :=
  C2_both_set_fails 4 7 [] { interface := iface_both } (by decide) (by decide)

/-- Claim C3: for every Interface with neither `port` set nor a non-empty
`unix_socket_path`, worker initialization fails with the configuration
error "must listen on one of TCP or local socket" (the `ValueError` on
lines 136-138), no socket is created and no worker descriptor is appended. -/
theorem C3_neither_set_fails (cpu pid : Nat) (ws : List Worker) (app : TornadoApp)
    (hport : app.interface.port = 0) (hunix : app.interface.unix_socket = "") :
    init_workers cpu pid ws app =
      (some (PyError.valueError
        "Interface MUST listen either on IP socket or UNIX socket"), ws, []) := by
  simp [init_workers, hport, hunix]

/-- Claim C3 witness on a concrete interface with port 0 and empty socket
path, with a non-empty prior worker list left unchanged. -/
theorem C3_neither_set_fails_witness :
    init_workers 4 7
      [{ name := "w", factory := WorkerFactory.getWorkerInstance,
         args := { app := { interface := iface_tcp },
                   sockets := Sockets.tcp 8080 "localhost", parent_pid := 7 } }]
      { interface := iface_neither } =
      (some (PyError.valueError
        "Interface MUST listen either on IP socket or UNIX socket"),
       [{ name := "w", factory := WorkerFactory.getWorkerInstance,
          args := { app := { interface := iface_tcp },
                    sockets := Sockets.tcp 8080 "localhost", parent_pid := 7 } }], []) :=
  C3_neither_set_fails 4 7 _ { interface := iface_neither } (by decide) (by decide)

/-- The number of worker descriptors `init_workers` appends for a valid
interface is the effective worker count. -/
theorem init_workers_valid_length (cpu pid : Nat) (ws : List Worker) (app : TornadoApp)
    (hvalid : valid_interface app.interface) :
    (init_workers cpu pid ws app).1 = none ∧
      ((init_workers cpu pid ws app).2.1).length =
        ws.length + effective_processes cpu app.interface := by
  rcases hvalid with ⟨hport, hunix⟩ | ⟨hport, hunix⟩
  · simp [init_workers, hport, hunix]
  · simp [init_workers, hport, hunix]

/-- Claim C4: for every valid Interface, if `process_count = k > 0` then
exactly `k` worker descriptors are created for it; if `process_count` is
not positive, the effective worker count equals the detected CPU core count
(which is at least 1, Tornado's `cpu_count` falling back to 1). -/
theorem C4_worker_count (cpu pid : Nat) (ws : List Worker) (app : TornadoApp)
    (hcpu : 1 ≤ cpu) (hvalid : valid_interface app.interface) :
    (init_workers cpu pid ws app).1 = none ∧
    (0 < app.interface.processes →
      ((init_workers cpu pid ws app).2.1).length =
        ws.length + app.interface.processes.toNat) ∧
    (app.interface.processes ≤ 0 →
      ((init_workers cpu pid ws app).2.1).length = ws.length + cpu ∧
        1 ≤ effective_processes cpu app.interface) := by
  obtain ⟨h1, h2⟩ := init_workers_valid_length cpu pid ws app hvalid
  refine ⟨h1, ?_, ?_⟩
  · intro hpos
    rw [h2]
    have : ¬ app.interface.processes ≤ 0 := by omega
    simp [effective_processes, this]
  · intro hle
    rw [h2]
    simp [effective_processes, hle]
    omega

/-- Claim C4 witness: for `iface_tcp` (`processes = 2`) with detected CPU
count 4, both hypotheses are discharged concretely. -/
theorem C4_worker_count_witness :
    (init_workers 4 7 [] { interface := iface_tcp }).1 = none ∧
    (0 < iface_tcp.processes →
      ((init_workers 4 7 [] { interface := iface_tcp }).2.1).length =
        (([] : List Worker)).length + iface_tcp.processes.toNat) ∧
    (iface_tcp.processes ≤ 0 →
      ((init_workers 4 7 [] { interface := iface_tcp }).2.1).length =
        (([] : List Worker)).length + 4 ∧
        1 ≤ effective_processes 4 iface_tcp) :=
  C4_worker_count 4 7 [] { interface := iface_tcp } (by decide) (by decide)

/-- Claim C8: for every valid Interface, `init_workers` binds one socket
set first and then appends one worker descriptor per slot of the effective
worker count, every descriptor built with the interface's name, the
`get_worker_instance` factory, that same shared socket set, and the
master's pid — so the trace is a single bind followed by identical appends,
and all workers of the interface hold identical socket and parent-pid
arguments. -/
theorem C8_populate_identical_descriptors (cpu pid : Nat) (ws : List Worker)
    (app : TornadoApp) (hvalid : valid_interface app.interface) :
    ∃ sockets : Sockets,
      (init_workers cpu pid ws app).1 = none ∧
      (init_workers cpu pid ws app).2.1 =
        ws ++ List.replicate (effective_processes cpu app.interface)
          { name := app.interface.name, factory := WorkerFactory.getWorkerInstance,
            args := { app := app, sockets := sockets, parent_pid := pid } } ∧
      (init_workers cpu pid ws app).2.2 =
        Event.bindSockets sockets ::
          List.replicate (effective_processes cpu app.interface)
            (Event.appendWorker
              { name := app.interface.name, factory := WorkerFactory.getWorkerInstance,
                args := { app := app, sockets := sockets, parent_pid := pid } }) := by
  rcases hvalid with ⟨hport, hunix⟩ | ⟨hport, hunix⟩
  · exact ⟨Sockets.tcp app.interface.port app.interface.host, by
      simp [init_workers, hport, hunix, List.map_replicate]⟩
  · exact ⟨Sockets.unix app.interface.unix_socket, by
      simp [init_workers, hport, hunix, List.map_replicate]⟩

/-- Claim C8 witness at the unix-socket interface `iface_unix`. -/
theorem C8_populate_identical_descriptors_witness :
    ∃ sockets : Sockets,
      (init_workers 4 7 [] { interface := iface_unix }).1 = none ∧
      (init_workers 4 7 [] { interface := iface_unix }).2.1 =
        [] ++ List.replicate (effective_processes 4 iface_unix)
          { name := iface_unix.name, factory := WorkerFactory.getWorkerInstance,
            args := { app := { interface := iface_unix }, sockets := sockets,
                      parent_pid := 7 } } ∧
      (init_workers 4 7 [] { interface := iface_unix }).2.2 =
        Event.bindSockets sockets ::
          List.replicate (effective_processes 4 iface_unix)
            (Event.appendWorker
              { name := iface_unix.name, factory := WorkerFactory.getWorkerInstance,
                args := { app := { interface := iface_unix }, sockets := sockets,
                          parent_pid := 7 } }) :=
  C8_populate_identical_descriptors 4 7 [] { interface := iface_unix } (by decide)

/-- Claim C9: every process instance returned by `get_worker_instance` has
its `ready` attribute set to `True`, for every argument tuple; it is a
`multiprocessing.Process` targeting `tornado_worker` with those arguments. -/
theorem C9_worker_instance_ready (args : WorkerArgs) :
    (get_worker_instance args).ready = true ∧
    (get_worker_instance args).target = ProcTarget.tornadoWorker ∧
    (get_worker_instance args).args = args := by
  simp [get_worker_instance]

/-- Claim C9 instantiated at a concrete argument tuple. -/
theorem C9_worker_instance_ready_witness :
    (get_worker_instance
      { app := { interface := iface_tcp }, sockets := Sockets.tcp 8080 "localhost",
        parent_pid := 7 }).ready = true ∧
    (get_worker_instance
      { app := { interface := iface_tcp }, sockets := Sockets.tcp 8080 "localhost",
        parent_pid := 7 }).target = ProcTarget.tornadoWorker ∧
    (get_worker_instance
      { app := { interface := iface_tcp }, sockets := Sockets.tcp 8080 "localhost",
        parent_pid := 7 }).args =
      { app := { interface := iface_tcp }, sockets := Sockets.tcp 8080 "localhost",
        parent_pid := 7 } :=
  C9_worker_instance_ready
    { app := { interface := iface_tcp }, sockets := Sockets.tcp 8080 "localhost",
      parent_pid := 7 }

/-- Claim C10: when the observed parent pid equals the captured parent pid,
`stop_child` changes nothing — the worker state is returned untouched (the
HTTP server is not stopped) and no action is performed (no stop callback is
scheduled), so the worker keeps serving. -/
theorem C10_liveness_match_noop (parent_pid ppid : Nat) (s : WorkerState)
    (h : ppid = parent_pid) :
    stop_child parent_pid ppid s = (s, []) := by
  simp [stop_child, h]

/-- Claim C10 witness: matching pids on the initial running state. -/
theorem C10_liveness_match_noop_witness :
    stop_child 5 5 initial_worker_state = (initial_worker_state, []) :=
  C10_liveness_match_noop 5 5 initial_worker_state rfl

/-- Claim C1: if from time `t0` on the observed parent pid differs from
the pid captured at worker creation, then some liveness tick at a time no
later than `t0` plus one poll interval (250 ms) leaves the worker with its
HTTP server stopped and an IOLoop stop requested — the transition to
Stopping happens within one liveness-poll interval of the parent change,
from any worker state. -/
theorem C1_orphan_stop_within_interval (parent_pid : Nat) (ppid : Nat → Nat)
    (t0 : Nat) (s0 : WorkerState)
    (hchange : ∀ t, t0 ≤ t → ppid t ≠ parent_pid) :
    ∃ m, 0 < m ∧ stop_callback_interval_ms * m ≤ t0 + stop_callback_interval_ms ∧
      run_ticks parent_pid ppid s0 m =
        { serverAccepting := false, loopStopRequested := true } := by
  refine ⟨t0 / stop_callback_interval_ms + 1, Nat.succ_pos _, ?_, ?_⟩
  · simp only [stop_callback_interval_ms]
    omega
  · have ht : t0 ≤ stop_callback_interval_ms * (t0 / stop_callback_interval_ms + 1) := by
      simp only [stop_callback_interval_ms]
      omega
    have hne := hchange _ ht
    simp [run_ticks, stop_child, hne]

/-- Claim C1 witness: captured parent pid 1, observed parent pid constantly
2 (changed from time 0 on); the first tick, at 250 ms, stops the worker. -/
theorem C1_orphan_stop_within_interval_witness :
    ∃ m, 0 < m ∧ stop_callback_interval_ms * m ≤ 0 + stop_callback_interval_ms ∧
      run_ticks 1 (fun _ => 2) initial_worker_state m =
        { serverAccepting := false, loopStopRequested := true } :=
  C1_orphan_stop_within_interval 1 (fun _ => 2) 0 initial_worker_state
    (fun t _ => by simp)

/-- Claim C6: for both stop triggers of a worker — the SIGINT handler and a
`stop_child` invocation with any observed parent pid — every IOLoop stop
request in the action trace is preceded by an HTTP-server stop: the loop is
never asked to stop before the server has stopped accepting. -/
theorem C6_server_stops_before_loop (dummy_signum dummy_frame parent_pid ppid : Nat)
    (s : WorkerState) :
    serverStopBeforeLoopStop (sigint_handler dummy_signum dummy_frame).2 ∧
    serverStopBeforeLoopStop (stop_child parent_pid ppid s).2 := by
  constructor
  · show serverStopBeforeLoopStop [Action.httpServerStop, Action.addCallbackLoopStop]
    decide
  · by_cases h : ppid ≠ parent_pid
    · simp only [stop_child, if_pos h]
      decide
    · simp only [stop_child, if_neg h]
      decide

/-- Claim C6 instantiated at concrete trigger inputs (including a
parent-pid mismatch, so the non-empty `stop_child` trace is exercised). -/
theorem C6_server_stops_before_loop_witness :
    serverStopBeforeLoopStop (sigint_handler 2 0).2 ∧
    serverStopBeforeLoopStop (stop_child 1 2 initial_worker_state).2 :=
  C6_server_stops_before_loop 2 0 1 2 initial_worker_state

/-- Claim C7: the master's command absorbs a `KeyboardInterrupt` raised by
the pool run and returns normally; a normal pool return passes through, and
any other exception propagates out of the command unchanged. -/
theorem C7_interrupt_absorbed :
    run_workers_guard (Except.error PyExc.keyboardInterrupt) = Except.ok () ∧
    run_workers_guard (Except.ok ()) = Except.ok () ∧
    ∀ e : PyExc, e ≠ PyExc.keyboardInterrupt →
      run_workers_guard (Except.error e) = Except.error e := by
  refine ⟨rfl, rfl, ?_⟩
  intro e he
  cases e with
  | keyboardInterrupt => exact absurd rfl he
  | other n => rfl

/-- Claim C7 witness: a `RuntimeError` escaping the pool run propagates. -/
theorem C7_interrupt_absorbed_witness :
    run_workers_guard (Except.error (PyExc.other "RuntimeError")) =
      Except.error (PyExc.other "RuntimeError") :=
  C7_interrupt_absorbed.2.2 (PyExc.other "RuntimeError") (by decide)

/-- Claim C5 counterexample: the claim "the max_restarts value passed to
the pool run equals the max_restarts given in the configuration input" is
false at the concrete configuration with `max_restarts = 5`: the command
issues the pool-run call with `max_restarts = 100` (the literal on line
106), and `100 ≠ 5`. -/
theorem C5_counterexample :
    ∃ call : StartWorkersCall,
      (command { name := "app", max_restarts := 5 } "runserver" 4 7 []).2.2 = some call ∧
      call.max_restarts ≠
        ({ name := "app", max_restarts := 5 } : Config).max_restarts :=
  ⟨{ workers := [], max_restarts := 100 }, rfl, by decide⟩

/-- Claim C5 amended: whenever the master's command reaches the pool run,
the `max_restarts` value passed to `start_workers` is the constant 100,
regardless of the configuration input. -/
theorem C5_max_restarts_constant (cfg : Config) (argv : String) (cpu pid : Nat)
    (apps : List TornadoApp) (call : StartWorkersCall)
    (h : (command cfg argv cpu pid apps).2.2 = some call) :
    call.max_restarts = 100 := by
  unfold command at h
  rcases hinit : init_all cpu pid apps [] with ⟨err, ws⟩
  rw [hinit] at h
  cases err with
  | none =>
    simp at h
    rw [← h]
  | some e =>
    simp at h

/-- Claim C5 amended, instantiated: with configured `max_restarts = 5` and
no interfaces, the issued call carries `max_restarts = 100`. -/
theorem C5_max_restarts_constant_witness :
    ({ workers := [], max_restarts := 100 } : StartWorkersCall).max_restarts = 100 :=
  C5_max_restarts_constant { name := "app", max_restarts := 5 } "runserver" 4 7 []
    { workers := [], max_restarts := 100 } rfl

end Shelter
